import Mathlib

/-!
Verification development for the `python-tools` repository.

The repository consists of three scripts:
* `download_files.py` — a parallel downloader (`download_file` and
  `download_files_parallel`),
* `remove_first_line_in_file.py` — strips leading lines from files,
* `rename_file.py` — batch-renames `*.mp4` files by deleting `.` characters.

This file gives a shallow embedding of those scripts and proves properties
about them.  Strings are modelled as Lean `String`/`List Char`; the network
is modelled as an oracle assigning each URL an event (a response with a
status and a body of bytes, a timeout, or a transport error); the file
system is a map from paths to byte lists.  Thread-pool concurrency is
modelled by quantifying over the completion order (an arbitrary permutation
of the submitted URLs); pool sizing is a pure function with no effect on the
collected results.
-/

set_option autoImplicit false

/-! ### Model of the Python stdlib pieces used by `download_file`

`urllib.parse.urlparse(url).path`: CPython first splits off a scheme
(`<alpha><alnum + - .>* :` prefix), then, if the remainder starts with
`//`, a netloc running up to the next `/`, `?` or `#`; the path is what is
left before the first `#` and before the first `?`. -/

def schemeChar (c : Char) : Bool :=
  c.isAlpha || c.isDigit || c == '+' || c == '-' || c == '.'

/-- Model of CPython's scheme splitting in `urlsplit`: if the first `:`
occurs at position `i > 0`, the first character is a letter and everything
before the `:` is a scheme character, drop the `scheme:` prefix. -/
def removeScheme (cs : List Char) : List Char :=
  match cs.findIdx? (fun c => c == ':') with
  | some i =>
      if 0 < i && (cs.take 1).all (fun c => c.isAlpha) && (cs.take i).all schemeChar then
        cs.drop (i + 1)
      else cs
  | none => cs

/-- Model of `_splitnetloc`: if the (scheme-stripped) URL starts with `//`,
drop the netloc, i.e. everything up to the next `/`, `?` or `#`. -/
def removeNetloc (cs : List Char) : List Char :=
  match cs with
  | '/' :: '/' :: rest => rest.dropWhile (fun c => !(c == '/' || c == '?' || c == '#'))
  | _ => cs

/-- Truncate at the first occurrence of `stop` (used for the `#`-fragment
and `?`-query splits of `urlsplit`). -/
def cutAt (stop : Char) (cs : List Char) : List Char :=
  cs.takeWhile (fun c => !(c == stop))

/-- The `path` component of `urllib.parse.urlparse`. -/
def urlPathChars (cs : List Char) : List Char :=
  cutAt '?' (cutAt '#' (removeNetloc (removeScheme cs)))

/-- Value of a hexadecimal digit, as used by `urllib.parse.unquote`. -/
def hexDigitVal (c : Char) : Option Nat :=
  if '0' ≤ c ∧ c ≤ '9' then some (c.toNat - '0'.toNat)
  else if 'a' ≤ c ∧ c ≤ 'f' then some (c.toNat - 'a'.toNat + 10)
  else if 'A' ≤ c ∧ c ≤ 'F' then some (c.toNat - 'A'.toNat + 10)
  else none

/-- Model of `urllib.parse.unquote` at the character level: each valid
`%XX` escape is replaced by the character with code `XX`; an invalid escape
is kept verbatim.  (Faithful for ASCII escapes; the multi-byte UTF-8
decoding step of CPython is not modelled, and no claim exercises it.) -/
def unquoteChars : List Char → List Char
  | '%' :: a :: b :: rest2 =>
      match hexDigitVal a, hexDigitVal b with
      | some x, some y => Char.ofNat (16 * x + y) :: unquoteChars rest2
      | _, _ => '%' :: unquoteChars (a :: b :: rest2)
  | c :: rest => c :: unquoteChars rest
  | [] => []

/-- Everything after the last `/` (the whole list when there is no `/`).
This is both `os.path.basename` (posix: `p[p.rfind(chr(47))+1:]`) and
Python's `url.split(sep)[-1]` for the one-character separator `/`. -/
def afterLastSlash (cs : List Char) : List Char :=
  (cs.reverse.takeWhile (fun c => !(c == '/'))).reverse

/-- Model of `posixpath.join(folder, filename)` for the two-argument call
in `download_file`. -/
def ospath_join (folder filename : String) : String :=
  if filename.data.head? = some '/' then filename
  else if folder = "" ∨ folder.data.getLast? = some '/' then folder ++ filename
  else folder ++ "/" ++ filename

/-- Filename derivation of `download_file` (lines 26–36 of
`download_files.py`): `os.path.basename(unquote(urlparse(url).path))`, then
fall back to `url.split(chr(47))[-1]`, then to `"downloaded_file"`. -/
def filename_from_url (url : String) : String :=
  let filename := afterLastSlash (unquoteChars (urlPathChars url.data))
  let filename := if filename = [] then afterLastSlash url.data else filename
  let filename := if filename = [] then String.data "downloaded_file" else filename
  String.mk filename

/-! ### Specification-side filename derivation (for the refinement claim)

`spec_filename` follows the spec's words: "decode percent-encoding in the
URL path, take the final path segment; if empty, fall back to the last
`/`-delimited token of the raw URL; if still empty, use a fixed default
name".  The "last `/`-delimited token" is written as a left fold that
restarts the token at each `/`. -/

def lastTok (cs : List Char) : List Char :=
  cs.foldl (fun acc c => if c == '/' then [] else acc ++ [c]) []

def spec_filename (url : String) : String :=
  let seg := lastTok (unquoteChars (urlPathChars url.data))
  if seg = [] then
    let tok := lastTok url.data
    if tok = [] then "downloaded_file" else String.mk tok
  else String.mk seg

/-! ### Model of the network and of `download_file`

The network is an oracle mapping each URL to one of three events: a
response (HTTP status plus body bytes), a timeout of `requests.get`, or a
connection/transport error of `requests.get`.  In `requests`, the raised
exceptions `HTTPError` (from `raise_for_status`, raised exactly when
`400 <= status < 600`), `Timeout` and `ConnectionError` are all subclasses
of `RequestException`; the `except` chain of `download_file` is modelled in
source order, so the `except requests.RequestException` arm is tried first
and the `except requests.Timeout` arm second.  The file system is a map
from paths to byte lists; `open(file_path, "wb")` truncates and rewrites
the destination file. -/

inductive NetEvent where
  | response (status : Nat) (body : List Nat)
  | timeout
  | connectionError
deriving DecidableEq

inductive ReqExc where
  | httpError (status : Nat)
  | timeoutError
  | connError
deriving DecidableEq

/-- All three modelled exceptions subclass `requests.RequestException`. -/
def isRequestException (e : ReqExc) : Bool :=
  match e with
  | ReqExc.httpError _ => true
  | ReqExc.timeoutError => true
  | ReqExc.connError => true

/-- Only `requests.Timeout` matches the `except requests.Timeout` arm. -/
def isTimeoutExc (e : ReqExc) : Bool :=
  match e with
  | ReqExc.timeoutError => true
  | _ => false

/-- Messages printed by `download_file`, identified by the handler that
emitted them: `genericError url e` models
`print(f"Error downloading {url}: {e}")` and `timeoutMsg url` models
`print(f"Timeout error downloading {url}")`. -/
inductive Msg where
  | genericError (url : String) (e : ReqExc)
  | timeoutMsg (url : String)
deriving DecidableEq

/-- Observable outcome of one `download_file` call: the returned value
(`some path` or `None`) and the message it printed, if any. -/
structure FetchOut where
  retval : Option String
  printed : Option Msg
deriving DecidableEq

/-- The `except` chain of `download_file`, in source order: a raised
exception is matched against `requests.RequestException` first and against
`requests.Timeout` second; an exception matching neither would propagate. -/
def handleRaised (url : String) (e : ReqExc) : Except ReqExc FetchOut :=
  if isRequestException e then Except.ok ⟨none, some (Msg.genericError url e)⟩
  else if isTimeoutExc e then Except.ok ⟨none, some (Msg.timeoutMsg url)⟩
  else Except.error e

/-- File system: map from paths to file contents (byte lists).  Directory
creation (`os.makedirs(..., exist_ok=True)`) is idempotent and is not
tracked. -/
def FS : Type := String → Option (List Nat)

/-- Effect of `open(file_path, "wb")` followed by writing every non-empty
chunk of the body: the destination file holds exactly the body bytes. -/
def writeFS (fs : FS) (p : String) (b : List Nat) : FS :=
  fun q => if q = p then some b else fs q

/-- Shallow embedding of `download_file(url, folder_path, timeout)`:
computes the destination path, performs the request (the event for this
URL), raises `HTTPError` on a 4xx/5xx status (`raise_for_status`),
`Timeout` on a timeout and `ConnectionError` on a transport failure,
writes the body on success, and runs raised exceptions through the
`except` chain.  Returns the file system after the call together with the
call's outcome (`Except.error` would be an exception escaping the call). -/
def download_file (fs : FS) (url folder : String) (ev : NetEvent) :
    FS × Except ReqExc FetchOut :=
  let file_path := ospath_join folder (filename_from_url url)
  match ev with
  | NetEvent.timeout => (fs, handleRaised url ReqExc.timeoutError)
  | NetEvent.connectionError => (fs, handleRaised url ReqExc.connError)
  | NetEvent.response s body =>
      if 400 ≤ s ∧ s < 600 then (fs, handleRaised url (ReqExc.httpError s))
      else (writeFS fs file_path body, Except.ok ⟨some file_path, none⟩)

/-- The outcome of `download_file` does not depend on the prior file
system; `download_file_ret` is that outcome. -/
def download_file_ret (url folder : String) (ev : NetEvent) : Except ReqExc FetchOut :=
  (download_file (fun _ => none) url folder ev).2

/-- Successful path produced for one URL, if any: `some path` when the
download succeeds, `none` when it fails (returns `None`) for any reason. -/
def succPath (folder : String) (net : String → NetEvent) (u : String) : Option String :=
  match download_file_ret u folder (net u) with
  | Except.ok o => o.retval
  | Except.error _ => none

/-- One step of the result-collection loop of `download_files_parallel`
(lines 106–114): take one completed future, append its path to
`downloaded_files` if it is truthy, swallow any exception. -/
def dfpStep (folder : String) (net : String → NetEvent) (st : FS × List String)
    (url : String) : FS × List String :=
  match download_file st.1 url folder (net url) with
  | (fs2, Except.ok o) =>
      match o.retval with
      | some p => (fs2, st.2 ++ [p])
      | none => (fs2, st.2)
  | (fs2, Except.error _) => (fs2, st.2)

/-- Shallow embedding of `download_files_parallel(urls, folder_path)`.
The thread pool completes the submitted futures in a nondeterministic
order, so the embedding takes the completion order `order` (a permutation
of the submitted URL list) as a parameter and folds the collection loop
over it, starting from `downloaded_files = []`. -/
def download_files_parallel (fs : FS) (order : List String) (folder : String)
    (net : String → NetEvent) : FS × List String :=
  order.foldl (dfpStep folder net) (fs, [])

/-- Worker-count computation of `download_files_parallel` (lines 86–95):
the explicit `max_workers` when given, otherwise `min(cpu_count * 2, 32)`. -/
def effective_max_workers (max_workers : Option Nat) (cpu_count : Nat) : Nat :=
  match max_workers with
  | some n => n
  | none => min (cpu_count * 2) 32

/-- Checks whether an outcome carries the message of the
`except requests.Timeout` handler. -/
def printedTimeout (r : Except ReqExc FetchOut) : Bool :=
  match r with
  | Except.ok o =>
      match o.printed with
      | some (Msg.timeoutMsg _) => true
      | _ => false
  | Except.error _ => false

/-! ### Model of `remove_first_line_in_file.py`

File contents are lists of characters.  `file.readlines()` splits the
content into lines, each line keeping its terminating newline (a last line
without a terminating newline is kept as is); `file.writelines(lines[2:])`
writes back the concatenation of all lines from index 2 on.  (The file is
opened in text mode with the platform newline; contents are modelled with
newline commonly written as a line feed.) -/

def readlinesChars : List Char → List (List Char)
  | [] => []
  | c :: cs =>
      if c == '\n' then [c] :: readlinesChars cs
      else
        match readlinesChars cs with
        | [] => [[c]]
        | l :: ls => (c :: l) :: ls

/-- Shallow embedding of `remove_first_line(file_path)`: read all lines,
write back `lines[2:]`. -/
def remove_first_line (content : List Char) : List Char :=
  ((readlinesChars content).drop 2).flatten

/-! ### Model of `rename_file.py`

Filenames are lists of characters.  The script renames every file matching
the glob `*.mp4` to `file.replace(".", "")` — the name with every `.`
deleted — and then prints the files matching `*.mp4` in a second glob
pass. -/

/-- Model of `file.replace(".", "")`: delete every `.` character. -/
def removeDots (cs : List Char) : List Char :=
  cs.filter (fun c => !(c == '.'))

/-- A filename matches the glob `*.mp4` exactly when it ends in `.mp4`. -/
def matchesMp4 (cs : List Char) : Bool :=
  decide (['.', 'm', 'p', '4'] <:+ cs)

/-- The rename loop of `rename_file.py`: every file matching `*.mp4` is
renamed to its dot-free name, the others are untouched. -/
def renameAll (files : List (List Char)) : List (List Char) :=
  files.map (fun f => if matchesMp4 f then removeDots f else f)

/-! ### Concrete fixtures used by witnesses and counterexamples -/

def emptyFS : FS := fun _ => none

def netOk : String → NetEvent := fun _ => NetEvent.response 200 [1]

def netTimeout : String → NetEvent := fun _ => NetEvent.timeout

def net404 : String → NetEvent := fun _ => NetEvent.response 404 []

/-- One URL times out, every other URL succeeds with a small body. -/
def netMix : String → NetEvent := fun u =>
  if u = "https://h/bad.bin" then NetEvent.timeout else NetEvent.response 200 [7]

/-! ### Helper lemmas -/

theorem lastTok_append (cs : List Char) (c : Char) :
    lastTok (cs ++ [c]) = if c == '/' then [] else lastTok cs ++ [c] := by
  unfold lastTok
  rw [List.foldl_append]
  rfl

theorem afterLastSlash_eq_lastTok (cs : List Char) : afterLastSlash cs = lastTok cs := by
  induction cs using List.reverseRecOn with
  | nil => rfl
  | append_singleton ds c ih =>
      rw [lastTok_append]
      unfold afterLastSlash
      rw [List.reverse_append, List.reverse_singleton, List.singleton_append,
        List.takeWhile_cons]
      by_cases h : (c == '/') = true
      · simp [h]
      · have h2 : (List.takeWhile (fun x => !(x == '/')) ds.reverse).reverse = lastTok ds := ih
        simp [h, h2]

theorem filename_eq_spec (url : String) : filename_from_url url = spec_filename url := by
  simp only [filename_from_url, spec_filename, afterLastSlash_eq_lastTok]
  by_cases h1 : lastTok (unquoteChars (urlPathChars url.data)) = []
  · by_cases h2 : lastTok url.data = []
    · simp [h1, h2]
    · simp [h1, h2]
  · simp [h1]

theorem download_file_snd (fs : FS) (url folder : String) (ev : NetEvent) :
    (download_file fs url folder ev).2 = download_file_ret url folder ev := by
  cases ev with
  | response s body =>
      simp only [download_file, download_file_ret]
      by_cases h : 400 ≤ s ∧ s < 600 <;> simp [h]
  | timeout => rfl
  | connectionError => rfl

theorem dfpStep_snd (folder : String) (net : String → NetEvent) (st : FS × List String)
    (url : String) :
    (dfpStep folder net st url).2 = st.2 ++ (succPath folder net url).toList := by
  unfold dfpStep succPath
  rw [show download_file st.1 url folder (net url)
        = ((download_file st.1 url folder (net url)).1,
           (download_file st.1 url folder (net url)).2) from rfl,
    download_file_snd]
  cases download_file_ret url folder (net url) with
  | ok o => cases h : o.retval <;> simp [h]
  | error e => simp

theorem dfp_foldl_snd (folder : String) (net : String → NetEvent) :
    ∀ (order : List String) (st : FS × List String),
      (order.foldl (dfpStep folder net) st).2 = st.2 ++ order.filterMap (succPath folder net) := by
  intro order
  induction order with
  | nil => intro st; simp
  | cons u rest ih =>
      intro st
      rw [List.foldl_cons, ih, dfpStep_snd, List.filterMap_cons]
      cases h : succPath folder net u <;> simp [h]

theorem dfp_snd (fs : FS) (order : List String) (folder : String) (net : String → NetEvent) :
    (download_files_parallel fs order folder net).2 = order.filterMap (succPath folder net) := by
  unfold download_files_parallel
  rw [dfp_foldl_snd]
  rfl

theorem no_exception_escapes (url folder : String) (ev : NetEvent) :
    ∃ o, download_file_ret url folder ev = Except.ok o := by
  cases ev with
  | response s body =>
      unfold download_file_ret download_file
      by_cases h : 400 ≤ s ∧ s < 600 <;> simp [h, handleRaised, isRequestException]
  | timeout => exact ⟨_, rfl⟩
  | connectionError => exact ⟨_, rfl⟩

theorem readlinesChars_flatten (cs : List Char) : (readlinesChars cs).flatten = cs := by
  induction cs with
  | nil => rfl
  | cons c cs ih =>
      unfold readlinesChars
      by_cases h : (c == '\n') = true
      · simp only [h, if_true, List.flatten_cons]
        rw [ih]
        have : c = '\n' := by simpa using h
        simp [this]
      · simp only [h, if_false]
        cases h2 : readlinesChars cs with
        | nil =>
            rw [h2] at ih
            simp only [List.flatten_nil] at ih
            simp [← ih]
        | cons l ls =>
            rw [h2] at ih
            rw [if_neg (by simp)]
            simp only [List.flatten_cons] at ih ⊢
            rw [List.cons_append, ih]

theorem removeDots_no_dot (f : List Char) : '.' ∉ removeDots f := by
  unfold removeDots
  intro h
  have h2 := List.of_mem_filter h
  simp at h2

theorem matchesMp4_removeDots (f : List Char) : matchesMp4 (removeDots f) = false := by
  unfold matchesMp4
  rw [decide_eq_false_iff_not]
  intro hsuf
  rcases hsuf with ⟨t, ht⟩
  have hmem : '.' ∈ removeDots f := by
    rw [← ht]
    simp
  exact removeDots_no_dot f hmem

theorem renameAll_no_mp4 (files : List (List Char)) :
    (renameAll files).filter (fun g => matchesMp4 g) = [] := by
  unfold renameAll
  induction files with
  | nil => rfl
  | cons f fs ih =>
      rw [List.map_cons, List.filter_cons]
      by_cases h : matchesMp4 f
      · simp only [h, if_true, matchesMp4_removeDots]
        simpa using ih
      · simp only [h, if_false]
        rw [if_neg (by simpa using h)]
        simpa using ih


/-! ### Claims -/

/-- C1 (amended).  Every submitted URL yields exactly one per-request
outcome, and for every completion order the list returned by
`download_files_parallel` is exactly the successful paths in that order; in
particular its length equals the number of successful requests, not the
number of input URLs. -/
theorem c1_success_only_results (fs : FS) (folder : String) (net : String → NetEvent)
    (urls order : List String) (h : order.Perm urls) :
    (order.map (fun u => download_file_ret u folder (net u))).length = urls.length ∧
    (download_files_parallel fs order folder net).2 = order.filterMap (succPath folder net) ∧
    (download_files_parallel fs order folder net).2.length
      = (urls.filterMap (succPath folder net)).length := by
  refine ⟨?_, dfp_snd fs order folder net, ?_⟩
  · rw [List.length_map, h.length_eq]
  · rw [dfp_snd, (h.filterMap (succPath folder net)).length_eq]

/-- Witness for C1: a one-URL batch that succeeds, evaluated concretely. -/
theorem c1_witness :
    (download_files_parallel emptyFS ["https://host/a.bin"] "d" netOk).2.length
      = (["https://host/a.bin"].filterMap (succPath "d" netOk)).length ∧
    (download_files_parallel emptyFS ["https://host/a.bin"] "d" netOk).2 = ["d/a.bin"] :=
  ⟨(c1_success_only_results emptyFS "d" netOk ["https://host/a.bin"] ["https://host/a.bin"]
      (List.Perm.refl ["https://host/a.bin"])).2.2,
   by decide⟩

/-- Counterexample for C1 as stated: a non-empty batch of one URL whose
download times out returns an empty list — length 0, not 1. -/
theorem c1_counterexample :
    (download_files_parallel emptyFS ["https://host/a.bin"] "d" netTimeout).2.length = 0 ∧
    (["https://host/a.bin"] : List String).length = 1 ∧
    ((download_files_parallel emptyFS ["https://host/a.bin"] "d" netTimeout).2.length
        == (["https://host/a.bin"] : List String).length) = false := by
  decide

/-- C2 (code bug).  A timed-out request is caught by the
`except requests.RequestException` arm, which precedes the
`except requests.Timeout` arm and also matches `requests.Timeout`; the
call returns `None` with the generic message, and the timeout-specific
handler can never run — no outcome distinct from the other error kinds is
ever produced. -/
theorem c2_timeout_not_distinguished :
    download_file_ret "https://host/f.bin" "d" NetEvent.timeout
      = Except.ok ⟨none, some (Msg.genericError "https://host/f.bin" ReqExc.timeoutError)⟩ ∧
    (∀ (url folder : String) (ev : NetEvent),
        printedTimeout (download_file_ret url folder ev) = false) := by
  constructor
  · rfl
  · intro url folder ev
    cases ev with
    | response s body =>
        unfold download_file_ret download_file
        by_cases h : 400 ≤ s ∧ s < 600 <;>
          simp [h, handleRaised, isRequestException, printedTimeout]
    | timeout => rfl
    | connectionError => rfl

/-- C3 (amended).  A URL whose download fails contributes nothing to the
collected list, the remaining URLs of the batch are still processed and
collected, and no per-request exception escapes `download_file` (all
modelled exceptions match the `except requests.RequestException` arm);
failures are only logged, not recorded in the returned collection. -/
theorem c3_failure_skipped_batch_continues (fs : FS) (folder : String)
    (net : String → NetEvent) (pre post : List String) (u : String)
    (h : succPath folder net u = none) :
    (download_files_parallel fs (pre ++ u :: post) folder net).2
      = (download_files_parallel fs (pre ++ post) folder net).2 ∧
    ∀ (url folder2 : String) (ev : NetEvent),
      ∃ o, download_file_ret url folder2 ev = Except.ok o := by
  constructor
  · rw [dfp_snd, dfp_snd, List.filterMap_append, List.filterMap_append,
      List.filterMap_cons, h]
  · exact no_exception_escapes

/-- Witness for C3: the first URL of a two-URL batch times out; the batch
result equals that of the batch without it, and the second URL's file is
still collected. -/
theorem c3_witness :
    (download_files_parallel emptyFS ["https://h/bad.bin", "https://h/good.bin"] "d" netMix).2
      = (download_files_parallel emptyFS ["https://h/good.bin"] "d" netMix).2 ∧
    (download_files_parallel emptyFS ["https://h/good.bin"] "d" netMix).2 = ["d/good.bin"] :=
  ⟨(c3_failure_skipped_batch_continues emptyFS "d" netMix [] ["https://h/good.bin"]
      "https://h/bad.bin" (by decide)).1,
   by decide⟩

/-- Counterexample for C3 as stated: with one failing and one succeeding
URL the collected result set is `["d/good.bin"]` — the failure is not
recorded in it, so the result set does not have one entry per request. -/
theorem c3_counterexample :
    (download_files_parallel emptyFS ["https://h/bad.bin", "https://h/good.bin"] "d" netMix).2
      = ["d/good.bin"] ∧
    ((download_files_parallel emptyFS ["https://h/bad.bin", "https://h/good.bin"] "d" netMix).2.length
        == (["https://h/bad.bin", "https://h/good.bin"] : List String).length) = false := by
  decide

/-- C4.  A URL answered with a 4xx/5xx status (`raise_for_status` raises
exactly for those) yields a `None` return with an error message, the batch
result is the same as if the URL had not been submitted, and — provided no
other URL of the batch succeeds with the same destination path — that
URL's path does not appear in the returned list. -/
theorem c4_http_error_not_in_output (fs : FS) (folder : String) (net : String → NetEvent)
    (pre post : List String) (u : String) (s : Nat) (b : List Nat)
    (hnet : net u = NetEvent.response s b) (h4 : 400 ≤ s) (h6 : s < 600) :
    download_file_ret u folder (net u)
      = Except.ok ⟨none, some (Msg.genericError u (ReqExc.httpError s))⟩ ∧
    (download_files_parallel fs (pre ++ u :: post) folder net).2
      = (download_files_parallel fs (pre ++ post) folder net).2 ∧
    ((∀ w ∈ pre ++ post,
        succPath folder net w ≠ some (ospath_join folder (filename_from_url u))) →
      ospath_join folder (filename_from_url u)
        ∉ (download_files_parallel fs (pre ++ u :: post) folder net).2) := by
  have hfail : download_file_ret u folder (net u)
      = Except.ok ⟨none, some (Msg.genericError u (ReqExc.httpError s))⟩ := by
    rw [hnet]
    unfold download_file_ret download_file
    simp [handleRaised, isRequestException, h4, h6]
  have hsucc : succPath folder net u = none := by
    unfold succPath
    rw [hfail]
  refine ⟨hfail, ?_, ?_⟩
  · rw [dfp_snd, dfp_snd, List.filterMap_append, List.filterMap_append,
      List.filterMap_cons, hsucc]
  · intro hother hmem
    rw [dfp_snd] at hmem
    rcases List.mem_filterMap.mp hmem with ⟨w, hw, hfw⟩
    rcases List.mem_append.mp hw with hpre | hrest
    · exact hother w (List.mem_append.mpr (Or.inl hpre)) hfw
    · rcases List.mem_cons.mp hrest with heq | hpost
      · rw [heq, hsucc] at hfw
        cases hfw
      · exact hother w (List.mem_append.mpr (Or.inr hpost)) hfw

/-- Witness for C4: a single URL that 404s; its path is absent from the
output and its call returns `None` with an `HTTPError` message. -/
theorem c4_witness :
    download_file_ret "https://host/a/b/photo.jpg" "d" (net404 "https://host/a/b/photo.jpg")
      = Except.ok ⟨none, some (Msg.genericError "https://host/a/b/photo.jpg"
          (ReqExc.httpError 404))⟩ ∧
    ospath_join "d" (filename_from_url "https://host/a/b/photo.jpg")
      ∉ (download_files_parallel emptyFS ["https://host/a/b/photo.jpg"] "d" net404).2 := by
  have h := c4_http_error_not_in_output emptyFS "d" net404 [] [] "https://host/a/b/photo.jpg"
    404 [] rfl (by decide) (by decide)
  exact ⟨h.1, h.2.2 (by intro w hw; exact absurd hw (List.not_mem_nil w))⟩

/-- C5.  The destination filename of `download_file` agrees with the
spec's description — percent-decode the URL path and take its final
segment, else the last `/`-delimited token of the raw URL, else
`"downloaded_file"` — and `"https://host/a/b/photo.jpg"` yields
`"photo.jpg"`. -/
theorem c5_filename_derivation :
    (∀ url, filename_from_url url = spec_filename url) ∧
    filename_from_url "https://host/a/b/photo.jpg" = "photo.jpg" :=
  ⟨filename_eq_spec, by decide⟩

/-- C6 (amended).  The fallback chain bottoms out at `"downloaded_file"`
exactly when, in addition to the decoded path having no final segment, the
last `/`-delimited token of the raw URL is also empty — as for
`"https://host/"`.  (For `"https://host"` the path is empty but the raw
URL's last token is `"host"`, which becomes the filename.) -/
theorem c6_default_filename (url : String)
    (h1 : afterLastSlash (unquoteChars (urlPathChars url.data)) = [])
    (h2 : afterLastSlash url.data = []) :
    filename_from_url url = "downloaded_file" := by
  simp [filename_from_url, h1, h2]

/-- Witness for C6: `"https://host/"` yields `"downloaded_file"`. -/
theorem c6_witness : filename_from_url "https://host/" = "downloaded_file" :=
  c6_default_filename "https://host/" (by decide) (by decide)

/-- Counterexample for C6 as stated: `"https://host"` has an empty URL
path — no non-empty path segment at all — yet its destination filename is
`"host"`, not `"downloaded_file"`, because the second step of the fallback
chain uses the last `/`-delimited token of the raw URL. -/
theorem c6_counterexample :
    urlPathChars (String.data "https://host") = [] ∧
    filename_from_url "https://host" = "host" ∧
    (filename_from_url "https://host" == "downloaded_file") = false := by
  decide

/-- C7.  Running `download_file` twice with the same URL, destination
folder and network outcome returns the same value both times (in
particular the same destination path) and leaves the file system of the
first run unchanged: the second run overwrites the same path, and no
second file appears. -/
theorem c7_second_fetch_overwrites (fs : FS) (url folder : String) (ev : NetEvent) :
    (download_file (download_file fs url folder ev).1 url folder ev).2
      = (download_file fs url folder ev).2 ∧
    ∀ q, (download_file (download_file fs url folder ev).1 url folder ev).1 q
      = (download_file fs url folder ev).1 q := by
  constructor
  · rw [download_file_snd, download_file_snd]
  · intro q
    cases ev with
    | timeout => rfl
    | connectionError => rfl
    | response s body =>
        by_cases h : 400 ≤ s ∧ s < 600
        · simp [download_file, h]
        · simp only [download_file, h, if_false, writeFS]
          by_cases hq : q = ospath_join folder (filename_from_url url) <;> simp [hq]

/-- C8.  With `max_workers` unset, `download_files_parallel` sizes its
pool as `min(cpu_count * 2, 32)`; an explicit value is used as given. -/
theorem c8_default_worker_count (cpu mw : Nat) :
    effective_max_workers none cpu = min (cpu * 2) 32 ∧
    effective_max_workers (some mw) cpu = mw :=
  ⟨rfl, rfl⟩

/-- C9.  `remove_first_line` writes back `lines[2:]`: the resulting
content is the concatenation of the original's lines from index 2 on
(where the lines faithfully partition the original content), and any file
with at most two lines becomes empty. -/
theorem c9_removes_two_lines (content : List Char) :
    remove_first_line content = ((readlinesChars content).drop 2).flatten ∧
    (readlinesChars content).flatten = content ∧
    ((readlinesChars content).length ≤ 2 → remove_first_line content = []) := by
  refine ⟨rfl, readlinesChars_flatten content, ?_⟩
  intro h
  unfold remove_first_line
  rw [List.drop_eq_nil_of_le h]
  rfl

/-- Witness for C9: a two-line file becomes empty. -/
theorem c9_witness :
    (readlinesChars ('a' :: '\n' :: 'b' :: '\n' :: [])).length ≤ 2 ∧
    remove_first_line ('a' :: '\n' :: 'b' :: '\n' :: []) = [] :=
  ⟨by decide, (c9_removes_two_lines ('a' :: '\n' :: 'b' :: '\n' :: [])).2.2 (by decide)⟩

/-- C10.  The rename loop deletes every `.` from a matching filename, so
no renamed file still matches `*.mp4`, the second glob pass over the
renamed directory finds nothing, and `"a.b.mp4"` becomes `"abmp4"`. -/
theorem c10_rename_strips_dots (files : List (List Char)) (f : List Char) :
    (matchesMp4 f = true → matchesMp4 (removeDots f) = false) ∧
    (renameAll files).filter (fun g => matchesMp4 g) = [] ∧
    removeDots (String.data "a.b.mp4") = String.data "abmp4" :=
  ⟨fun _ => matchesMp4_removeDots f, renameAll_no_mp4 files, by decide⟩

/-- Witness for C10: `"a.b.mp4"` matches `*.mp4` before renaming and its
renamed form does not. -/
theorem c10_witness :
    matchesMp4 (String.data "a.b.mp4") = true ∧
    matchesMp4 (removeDots (String.data "a.b.mp4")) = false :=
  ⟨by decide, (c10_rename_strips_dots [] (String.data "a.b.mp4")).1 (by decide)⟩
